import Mathlib

/-!
Shallow embedding of the captcha repository (src/index.tsx, src/utils.ts,
src/unnamed/part_000 = types.ts): the window-replication engine, the
verification/crash state machine, and the procedural window factory.
Randomness (Math.random-driven choices) is passed in explicitly through
oracle arguments; the DOM viewport size is passed as two integers.
-/

namespace Captcha

/-- Window kinds, from types.ts (`WindowType`). -/
inductive WindowType where
  | IMAGE | TEXT | CODE | CAPTCHA | ERROR
  deriving DecidableEq, Repr, Inhabited

/-- The kind-specific `content` payload of a window (typed `any` in the
source; the four shapes actually constructed in `createRandomWindow`,
plus `undef` for the JS `undefined` of an unmatched kind). -/
inductive WindowContent where
  | text (s : String)
  | code (s : String)
  | captcha (bgImage : Option String) (emojis : List String)
  | image (emoji : String) (bgImage : Option String) (color1 color2 : String)
  | undef
  deriving DecidableEq, Repr, Inhabited

/-- `WindowData` from types.ts.  The optional `isClosing` flag is never set
anywhere in index.tsx, so it is omitted. -/
structure WindowData where
  id : String
  type : WindowType
  x : Int
  y : Int
  width : Int
  height : Int
  zIndex : Int
  title : String
  content : WindowContent
  rotation : Int
  deriving DecidableEq, Repr, Inhabited

/-- The `mode` state of `App`: `'intro' | 'verified' | 'crash'`. -/
inductive Mode where
  | intro | verified | crash
  deriving DecidableEq, Repr, Inhabited

/-- `MAX_WINDOWS` from index.tsx. -/
def MAX_WINDOWS : Nat := 40

/-- `SUCCESS_CODES` from index.tsx. -/
def SUCCESS_CODES : List String :=
  ["A1B1", "A2B2", "A3B3", "A4B4", "A5B3", "A6B1", "A6B2", "A6B3"]

/-- `TASK_MAP` from index.tsx (record, modelled as an association list). -/
def TASK_MAP : List (String × String) :=
  [("A1", "Seleziona tutti gli organismi viventi :"),
   ("A2", "Seleziona tutti gli oggetti che possono essere utilizzati per la navigazione :"),
   ("A3", "Seleziona tutti gli oggetti che svolgono funzioni di pubblica sicurezza :"),
   ("A4", "Seleziona gli oggetti che assomigliano a volti umani :"),
   ("A5", "Seleziona tutti gli oggetti contenenti elementi rossi :"),
   ("A6", "Seleziona oggetti appartenenti al mondo reale:")]

/-- One entry of `VISUAL_MAP`. -/
structure VisualData where
  img : String
  emojis : List String
  sound : String
  deriving DecidableEq, Repr, Inhabited

/-- `VISUAL_MAP` from index.tsx. -/
def VISUAL_MAP : List (String × VisualData) :=
  [("B1", { img := "B1.jpg", emojis := ["🐶", "🧁", "🍪", "🐩"], sound := "/bark.mp3" }),
   ("B2", { img := "B2.jpg", emojis := ["🚦", "🛑", "🚲", "🛣️"], sound := "/honk.mp3" }),
   ("B3", { img := "B3.jpg", emojis := ["🧯", "🚒", "🔥", "💦"], sound := "/siren.mp3" }),
   ("B4", { img := "B4.jpg", emojis := ["👁️", "👄", "🤡", "👺"], sound := "/glitch_voice.mp3" })]

/-- `randomInt(min, max)` from utils.ts returns an arbitrary integer in
`[min, max]`; the roll of `Math.random()` is abstracted into a natural
number `roll`, reduced modulo the size of the range. -/
def randomInt (lo hi : Int) (roll : Nat) : Int :=
  lo + (roll : Int) % (hi - lo + 1)

/-- JS `trim()`: strip leading and trailing whitespace, modelled on the
character list so it evaluates inside the kernel. -/
def jsTrim (s : String) : String :=
  ⟨((s.data.dropWhile Char.isWhitespace).reverse.dropWhile Char.isWhitespace).reverse⟩

/-- JS `toUpperCase()`: per-character uppercasing. -/
def jsToUpper (s : String) : String := ⟨s.data.map Char.toUpper⟩

/-- JS `substring(0, n)`. -/
def strTake (s : String) (n : Nat) : String := ⟨s.data.take n⟩

/-- JS `substring(n)`. -/
def strDrop (s : String) (n : Nat) : String := ⟨s.data.drop n⟩

/-- `randomItem(arr)` from utils.ts returns `arr[k]` for an arbitrary
`k < arr.length`; the roll is abstracted into `idx`, reduced modulo the
length. -/
def randomItem {α : Type} [Inhabited α] (l : List α) (idx : Nat) : α :=
  l.getD (idx % l.length) default

/-- The fixed snippet pool of `generateRandomCode` in utils.ts. -/
def snippets : List String :=
  ["0x4F3A void main() \x7b",
   "  system.failure(0x00);",
   "  if (human) break;",
   "  // MEMORY LEAK DETECTED",
   "  while(true) \x7b spawn(); \x7d",
   "  <buffer_overflow>",
   "  segmentation fault (core dumped)",
   "  00101010 11001010",
   "  ERROR: CAPTCHA_FAILED",
   "  retrieving: chihuahua.jpg",
   "  analyzing texture...",
   "  geometry.collision(true);"]

/-- `generateRandomCode(lines)` from utils.ts: starting from the empty
string, append a sampled snippet plus a newline, `lines` times.  The
source's default argument is `lines = 20`; every call site uses it.
`pick` abstracts the per-iteration `Math.random()` roll. -/
def generateRandomCode (pick : Nat → Nat) (lines : Nat) : String :=
  (List.range lines).foldl (fun code i => code ++ randomItem snippets (pick i) ++ "\n") ""

/-- All random draws one call of `createRandomWindow` makes, gathered into
an oracle record (the sound-effect rolls are omitted: sound playback is an
external collaborator with no effect on state). -/
structure SpawnRand where
  typeIdx : Nat
  widthRoll : Nat
  heightRoll : Nat
  posXRoll : Nat
  posYRoll : Nat
  rotRoll : Nat
  idStr : String
  codePick : Nat → Nat
  emojiIdx : Nat

/-- The `types` list inside `createRandomWindow`. -/
def windowTypes : List WindowType :=
  [WindowType.IMAGE, WindowType.TEXT, WindowType.CODE, WindowType.CAPTCHA]

/-- `createRandomWindow(zIndex, x?, y?, taskId?, visualId?)` from
index.tsx.  `iw`/`ih` are `window.innerWidth`/`window.innerHeight`.
JS falsiness of an empty string (`visualId && ...`, `taskId ? ...`) is
modelled by explicit emptiness tests; an absent (`undefined`) argument is
`none`. -/
def createRandomWindow (iw ih : Int) (r : SpawnRand) (zIndex : Int)
    (x0 y0 : Option Int) (taskId visualId : Option String) : WindowData :=
  let visualData : Option VisualData :=
    match visualId with
    | some v => if v = "" then none else VISUAL_MAP.lookup v
    | none => none
  let type := randomItem windowTypes r.typeIdx
  let width : Int := if type = WindowType.CAPTCHA then 300 else randomInt 200 400 r.widthRoll
  let height : Int := if type = WindowType.CAPTCHA then 320 else randomInt 150 300 r.heightRoll
  let taskText : String :=
    match taskId with
    | some t => if t = "" then "SYSTEM FAILURE" else (TASK_MAP.lookup t).getD "SYSTEM FAILURE"
    | none => "SYSTEM FAILURE"
  let emojiList : List String :=
    match visualData with
    | some v => v.emojis
    | none => ["⚠️", "❌", "🚫"]
  let bgImg : Option String := visualData.map (fun v => v.img)
  let ct : WindowContent × String :=
    match type with
    | WindowType.TEXT =>
        (WindowContent.text taskText,
         match taskId with
         | some t => if t = "" then "Warning" else "Task: " ++ t
         | none => "Warning")
    | WindowType.CODE =>
        (WindowContent.code (generateRandomCode r.codePick 20), "Terminal.exe")
    | WindowType.IMAGE =>
        (WindowContent.image (randomItem emojiList r.emojiIdx) bgImg "#ff9a9e" "#fecfef",
         match visualId with
         | some v =>
             if v = "" then "image.jpg" else ((visualData.map (fun vd => vd.img)).getD "undefined")
         | none => "image.jpg")
    | WindowType.CAPTCHA =>
        (WindowContent.captcha bgImg emojiList, strTake taskText 25 ++ "...")
    | WindowType.ERROR => (WindowContent.undef, "System Alert")
  let safeWidth : Int := min width (iw - 40)
  let posX : Int :=
    match x0 with
    | some px => px
    | none => randomInt 10 (max 10 (iw - safeWidth - 20)) r.posXRoll
  let posY : Int :=
    match y0 with
    | some py => py
    | none => randomInt 60 (max 60 (ih - height - 60)) r.posYRoll
  { id := r.idStr, type := type, x := posX, y := posY, width := safeWidth, height := height,
    zIndex := zIndex, title := ct.2, content := ct.1, rotation := randomInt (-3) 3 r.rotRoll }

/-- The `App` component state relevant to the core logic: `mode`,
`inputCode`, `errorMsg` (the spec's `errorKind`: `"ERROR: INPUT REQUIRED"`
is EMPTY, `"ERROR: INVALID CODE"` is INVALID, `""` is NONE), `windows`,
`zCounter`, and the crash context `crashTask`/`crashVisual` (empty string
= unset, as in the source's `useState<string>('')`).  The decorative
`mousePos`/`probability` readouts are not part of the core. -/
structure AppState where
  mode : Mode
  inputCode : String
  errorMsg : String
  windows : List WindowData
  zCounter : Int
  crashTask : String
  crashVisual : String
  deriving DecidableEq, Repr, Inhabited

/-- The initial `useState` values of `App`. -/
def initState : AppState :=
  { mode := Mode.intro, inputCode := "", errorMsg := "", windows := [],
    zCounter := 100, crashTask := "", crashVisual := "" }

/-- The input normalization in `handleInputSubmit`:
`inputCode.trim().toUpperCase()`. -/
def normalize (s : String) : String := jsToUpper (jsTrim s)

/-- The test of the crash grammar `/^A[1-6]B[1-4]$/` in `handleInputSubmit`. -/
def crashRegexTest (s : String) : Bool :=
  match s.toList with
  | ['A', c1, 'B', c2] => ('1' ≤ c1 && c1 ≤ '6') && ('1' ≤ c2 && c2 ≤ '4')
  | _ => false

/-- `handleInputSubmit` from index.tsx.  `rs i` is the oracle for the
`i`-th window of the 5-window crash burst. -/
def handleInputSubmit (iw ih : Int) (rs : Nat → SpawnRand) (s : AppState) : AppState :=
  let code := normalize s.inputCode
  if code = "" then { s with errorMsg := "ERROR: INPUT REQUIRED" }
  else if code ∈ SUCCESS_CODES then { s with mode := Mode.verified }
  else if crashRegexTest code then
    let taskId := strTake code 2
    let visualId := strDrop code 2
    { s with crashTask := taskId, crashVisual := visualId, mode := Mode.crash,
             windows := (List.range 5).map (fun i =>
               createRandomWindow iw ih (rs i) (100 + (i : Int)) none none
                 (some taskId) (some visualId)),
             zCounter := 105 }
  else { s with errorMsg := "ERROR: INVALID CODE" }

/-- The body of the crash-loop interval in `App` (the `setInterval`
callback active while `mode === 'crash'`): append one window at the
current `zCounter` unless the collection is full; the counter is bumped
by its own setter in either case. -/
def crashTick (iw ih : Int) (r : SpawnRand) (s : AppState) : AppState :=
  let windows' :=
    if s.windows.length ≥ MAX_WINDOWS then s.windows
    else s.windows ++ [createRandomWindow iw ih r s.zCounter none none
      (some s.crashTask) (some s.crashVisual)]
  { s with windows := windows', zCounter := s.zCounter + 1 }

/-- `closeWindow(id, x, y)` from index.tsx.  The cap check reads
`windows.length` from the render snapshot, i.e. the pre-removal count;
both `setWindows` updates are applied in order. -/
def closeWindow (iw ih : Int) (r1 r2 : SpawnRand) (id : String) (x y : Int)
    (s : AppState) : AppState :=
  let filtered := s.windows.filter (fun w => w.id != id)
  if s.windows.length < MAX_WINDOWS then
    let newZ := s.zCounter + 2
    { s with zCounter := newZ,
             windows := filtered ++
               [createRandomWindow iw ih r1 (newZ - 1) (some (x - 20)) (some (y - 20))
                  (some s.crashTask) (some s.crashVisual),
                createRandomWindow iw ih r2 newZ (some (x + 20)) (some (y + 20))
                  (some s.crashTask) (some s.crashVisual)] }
  else { s with windows := filtered }

/-- `focusWindow(id)` from index.tsx: the counter setter increments
unconditionally; the windows update assigns `zCounter + 1` (the render
snapshot's counter plus one) to every window whose id matches. -/
def focusWindow (id : String) (s : AppState) : AppState :=
  { s with zCounter := s.zCounter + 1,
           windows := s.windows.map (fun w =>
             if w.id == id then { w with zIndex := s.zCounter + 1 } else w) }

/-- `dragWindow(id, dx, dy)` from index.tsx. -/
def dragWindow (id : String) (dx dy : Int) (s : AppState) : AppState :=
  { s with windows := s.windows.map (fun w =>
      if w.id == id then { w with x := w.x + dx, y := w.y + dy } else w) }

/-- The discrete events the UI can deliver to `App`.  Oracle arguments
carry the random draws the corresponding handler makes. -/
inductive Op where
  | typing (str : String)
  | submit (rs : Nat → SpawnRand)
  | tick (r : SpawnRand)
  | close (id : String) (x y : Int) (r1 r2 : SpawnRand)
  | focus (id : String)
  | drag (id : String) (dx dy : Int)

/-- One event step.  Guards reflect when the UI can emit the event:
the input form (typing/submit) is rendered only in `intro` mode; the
windows (close/focus/drag) are rendered, and the spawn interval runs,
only in `crash` mode.  Typing truncates to the input's `maxLength=10`
and clears any error message. -/
def exec (iw ih : Int) (s : AppState) : Op → AppState
  | Op.typing str =>
      if s.mode = Mode.intro then { s with inputCode := strTake str 10, errorMsg := "" } else s
  | Op.submit rs => if s.mode = Mode.intro then handleInputSubmit iw ih rs s else s
  | Op.tick r => if s.mode = Mode.crash then crashTick iw ih r s else s
  | Op.close id x y r1 r2 =>
      if s.mode = Mode.crash then closeWindow iw ih r1 r2 id x y s else s
  | Op.focus id => if s.mode = Mode.crash then focusWindow id s else s
  | Op.drag id dx dy => if s.mode = Mode.crash then dragWindow id dx dy s else s

/-- Run a sequence of events from a state. -/
def run (iw ih : Int) (s : AppState) : List Op → AppState
  | [] => s
  | op :: ops => run iw ih (exec iw ih s op) ops

/-- A state is reachable when some event sequence produces it from the
initial state. -/
def Reachable (iw ih : Int) (s : AppState) : Prop :=
  ∃ ops : List Op, s = run iw ih initState ops

/-- The zOrder values the event assigns in state `s`, in assignment
order: the crash burst assigns 100..104; a tick that spawns assigns the
current counter; a close below the cap assigns `zCounter+1, zCounter+2`
to its two replacements; a focus of an existing id assigns `zCounter+1`. -/
def assigns (s : AppState) : Op → List Int
  | Op.typing _ => []
  | Op.submit _ =>
      if s.mode = Mode.intro then
        let code := normalize s.inputCode
        if code = "" then []
        else if code ∈ SUCCESS_CODES then []
        else if crashRegexTest code then [100, 101, 102, 103, 104]
        else []
      else []
  | Op.tick _ =>
      if s.mode = Mode.crash then
        if s.windows.length ≥ MAX_WINDOWS then [] else [s.zCounter]
      else []
  | Op.close _ _ _ _ _ =>
      if s.mode = Mode.crash then
        if s.windows.length < MAX_WINDOWS then [s.zCounter + 1, s.zCounter + 2] else []
      else []
  | Op.focus id =>
      if s.mode = Mode.crash then
        if s.windows.any (fun w => w.id == id) then [s.zCounter + 1] else []
      else []
  | Op.drag _ _ _ => []

/-- The concatenated assignment log of a run. -/
def runLog (iw ih : Int) (s : AppState) : List Op → List Int
  | [] => []
  | op :: ops => assigns s op ++ runLog iw ih (exec iw ih s op) ops

/-! Concrete instances used by witnesses and counterexamples. -/

/-- A concrete viewport width. -/
def iw0 : Int := 1024

/-- A concrete viewport height. -/
def ih0 : Int := 768

/-- A concrete spawn oracle: every generated window gets id `"w"`. -/
def r0 : SpawnRand :=
  { typeIdx := 0, widthRoll := 0, heightRoll := 0, posXRoll := 0, posYRoll := 0,
    rotRoll := 0, idStr := "w", codePick := fun _ => 0, emojiIdx := 0 }

/-- A burst oracle giving the five seeded windows distinct ids
`"w0"`..`"w4"`. -/
def rsD : Nat → SpawnRand := fun i => { r0 with idStr := "w" ++ toString i }

/-- The event sequence typing the crash code `a1b2` and submitting it. -/
def opsSeed : List Op := [Op.typing "a1b2", Op.submit (fun _ => r0)]

/-- The crash state seeded with five windows all of id `"w"`. -/
def stateA : AppState := run iw0 ih0 initState opsSeed

/-- As `opsSeed`, with distinct seeded ids. -/
def opsSeedD : List Op := [Op.typing "a1b2", Op.submit rsD]

/-- The crash state seeded with five windows of ids `"w0"`..`"w4"`. -/
def stateB : AppState := run iw0 ih0 initState opsSeedD

/-! ### Basic facts about the spawner and the submit handler -/

@[simp] theorem createRandomWindow_id (iw ih : Int) (r : SpawnRand) (z : Int)
    (x0 y0 : Option Int) (t v : Option String) :
    (createRandomWindow iw ih r z x0 y0 t v).id = r.idStr := rfl

@[simp] theorem createRandomWindow_zIndex (iw ih : Int) (r : SpawnRand) (z : Int)
    (x0 y0 : Option Int) (t v : Option String) :
    (createRandomWindow iw ih r z x0 y0 t v).zIndex = z := rfl

@[simp] theorem createRandomWindow_x (iw ih : Int) (r : SpawnRand) (z : Int)
    (px : Int) (y0 : Option Int) (t v : Option String) :
    (createRandomWindow iw ih r z (some px) y0 t v).x = px := rfl

@[simp] theorem createRandomWindow_y (iw ih : Int) (r : SpawnRand) (z : Int)
    (x0 : Option Int) (py : Int) (t v : Option String) :
    (createRandomWindow iw ih r z x0 (some py) t v).y = py := rfl

theorem handleInputSubmit_empty (iw ih : Int) (rs : Nat → SpawnRand) (s : AppState)
    (h : normalize s.inputCode = "") :
    handleInputSubmit iw ih rs s = { s with errorMsg := "ERROR: INPUT REQUIRED" } := by
  simp [handleInputSubmit, h]

theorem handleInputSubmit_success (iw ih : Int) (rs : Nat → SpawnRand) (s : AppState)
    (h : normalize s.inputCode ∈ SUCCESS_CODES) :
    handleInputSubmit iw ih rs s = { s with mode := Mode.verified } := by
  have hne : ¬ normalize s.inputCode = "" := by
    intro he
    rw [he] at h
    exact absurd h (by decide)
  simp [handleInputSubmit, hne, h]

theorem handleInputSubmit_crash (iw ih : Int) (rs : Nat → SpawnRand) (s : AppState)
    (h1 : normalize s.inputCode ∉ SUCCESS_CODES)
    (h2 : crashRegexTest (normalize s.inputCode) = true) :
    handleInputSubmit iw ih rs s =
      { s with crashTask := strTake (normalize s.inputCode) 2,
               crashVisual := strDrop (normalize s.inputCode) 2,
               mode := Mode.crash,
               windows := (List.range 5).map (fun i =>
                 createRandomWindow iw ih (rs i) (100 + (i : Int)) none none
                   (some (strTake (normalize s.inputCode) 2))
                   (some (strDrop (normalize s.inputCode) 2))),
               zCounter := 105 } := by
  have hne : ¬ normalize s.inputCode = "" := by
    intro he
    rw [he] at h2
    exact absurd h2 (by decide)
  simp [handleInputSubmit, hne, h1, h2]

theorem handleInputSubmit_invalid (iw ih : Int) (rs : Nat → SpawnRand) (s : AppState)
    (h0 : ¬ normalize s.inputCode = "")
    (h1 : normalize s.inputCode ∉ SUCCESS_CODES)
    (h2 : crashRegexTest (normalize s.inputCode) = false) :
    handleInputSubmit iw ih rs s = { s with errorMsg := "ERROR: INVALID CODE" } := by
  simp [handleInputSubmit, h0, h1, h2]

/-- Unfolded form of the crash-loop body. -/
theorem crashTick_eq (iw ih : Int) (r : SpawnRand) (s : AppState) :
    crashTick iw ih r s =
      { s with windows :=
                 if s.windows.length ≥ MAX_WINDOWS then s.windows
                 else s.windows ++ [createRandomWindow iw ih r s.zCounter none none
                   (some s.crashTask) (some s.crashVisual)],
               zCounter := s.zCounter + 1 } := rfl

theorem run_nil (iw ih : Int) (s : AppState) : run iw ih s [] = s := rfl

theorem run_cons (iw ih : Int) (s : AppState) (op : Op) (ops : List Op) :
    run iw ih s (op :: ops) = run iw ih (exec iw ih s op) ops := rfl

theorem run_append (iw ih : Int) (l1 l2 : List Op) :
    ∀ s : AppState, run iw ih s (l1 ++ l2) = run iw ih (run iw ih s l1) l2 := by
  induction l1 with
  | nil => intro s; rfl
  | cons op ops ih1 => intro s; exact ih1 (exec iw ih s op)

/-! ### The master state invariant -/

/-- Every window's `zIndex` is bounded by the counter, and in `intro` mode
the collection is empty with the counter at its initial value 100. -/
def Inv (s : AppState) : Prop :=
  (∀ w ∈ s.windows, w.zIndex ≤ s.zCounter) ∧
  (s.mode = Mode.intro → s.windows = [] ∧ s.zCounter = 100)

theorem inv_initState : Inv initState := by
  constructor
  · intro w hw
    simp [initState] at hw
  · intro _
    exact ⟨rfl, rfl⟩

theorem inv_exec (iw ih : Int) (s : AppState) (op : Op) (h : Inv s) :
    Inv (exec iw ih s op) := by
  obtain ⟨hz, hintro⟩ := h
  cases op with
  | typing str =>
      simp only [exec]
      split
      · exact ⟨hz, fun hm => hintro hm⟩
      · exact ⟨hz, hintro⟩
  | submit rs =>
      simp only [exec]
      split
      · rename_i hm
        obtain ⟨hw0, hc0⟩ := hintro hm
        by_cases he : normalize s.inputCode = ""
        · rw [handleInputSubmit_empty iw ih rs s he]
          exact ⟨hz, fun _ => ⟨hw0, hc0⟩⟩
        · by_cases hsucc : normalize s.inputCode ∈ SUCCESS_CODES
          · rw [handleInputSubmit_success iw ih rs s hsucc]
            exact ⟨hz, fun hm2 => Mode.noConfusion hm2⟩
          · by_cases hcr : crashRegexTest (normalize s.inputCode) = true
            · rw [handleInputSubmit_crash iw ih rs s hsucc hcr]
              constructor
              · intro w hw
                simp only [List.mem_map, List.mem_range] at hw
                obtain ⟨i, hi, rfl⟩ := hw
                show (100 : Int) + (i : Int) ≤ 105
                omega
              · intro hm2
                exact Mode.noConfusion hm2
            · have hcr' : crashRegexTest (normalize s.inputCode) = false :=
                Bool.eq_false_iff.mpr hcr
              rw [handleInputSubmit_invalid iw ih rs s he hsucc hcr']
              exact ⟨hz, fun _ => ⟨hw0, hc0⟩⟩
      · exact ⟨hz, hintro⟩
  | tick r =>
      simp only [exec]
      split
      · rename_i hm
        rw [crashTick_eq]
        constructor
        · intro w hw
          show w.zIndex ≤ s.zCounter + 1
          simp only at hw
          split at hw
          · exact le_trans (hz w hw) (by omega)
          · rcases List.mem_append.mp hw with hw1 | hw2
            · exact le_trans (hz w hw1) (by omega)
            · rcases List.mem_singleton.mp hw2 with rfl
              show s.zCounter ≤ s.zCounter + 1
              omega
        · intro hm2
          simp only at hm2
          rw [hm] at hm2
          exact absurd hm2 (by decide)
      · exact ⟨hz, hintro⟩
  | close id x y r1 r2 =>
      simp only [exec]
      split
      · rename_i hm
        by_cases hlt : s.windows.length < MAX_WINDOWS
        · constructor
          · intro w hw
            simp only [closeWindow, if_pos hlt] at hw ⊢
            rcases List.mem_append.mp hw with hw1 | hw2
            · have := hz w (List.mem_of_mem_filter hw1)
              exact le_trans this (by omega)
            · cases hw2 with
              | head =>
                  show s.zCounter + 2 - 1 ≤ s.zCounter + 2
                  omega
              | tail _ hw3 =>
                  rcases List.mem_singleton.mp hw3 with rfl
                  show s.zCounter + 2 ≤ s.zCounter + 2
                  omega
          · intro hm2
            simp only [closeWindow, if_pos hlt] at hm2
            rw [hm] at hm2
            exact absurd hm2 (by decide)
        · constructor
          · intro w hw
            simp only [closeWindow, if_neg hlt] at hw ⊢
            exact hz w (List.mem_of_mem_filter hw)
          · intro hm2
            simp only [closeWindow, if_neg hlt] at hm2
            rw [hm] at hm2
            exact absurd hm2 (by decide)
      · exact ⟨hz, hintro⟩
  | focus id =>
      simp only [exec]
      split
      · rename_i hm
        constructor
        · intro w hw
          simp only [focusWindow] at hw ⊢
          rcases List.mem_map.mp hw with ⟨w0, hw0, rfl⟩
          by_cases hid : (w0.id == id) = true
          · simp only [hid, if_pos]
            show s.zCounter + 1 ≤ s.zCounter + 1
            omega
          · simp only [hid]
            show w0.zIndex ≤ s.zCounter + 1
            exact le_trans (hz w0 hw0) (by omega)
        · intro hm2
          simp only [focusWindow] at hm2
          rw [hm] at hm2
          exact absurd hm2 (by decide)
      · exact ⟨hz, hintro⟩
  | drag id dx dy =>
      simp only [exec]
      split
      · rename_i hm
        constructor
        · intro w hw
          simp only [dragWindow] at hw ⊢
          rcases List.mem_map.mp hw with ⟨w0, hw0, rfl⟩
          by_cases hid : (w0.id == id) = true
          · simp only [hid, if_pos]
            exact hz w0 hw0
          · simp only [hid]
            exact hz w0 hw0
        · intro hm2
          simp only [dragWindow] at hm2
          rw [hm] at hm2
          exact absurd hm2 (by decide)
      · exact ⟨hz, hintro⟩

theorem inv_run (iw ih : Int) : ∀ (ops : List Op) (s : AppState), Inv s → Inv (run iw ih s ops) := by
  intro ops
  induction ops with
  | nil => intro s h; exact h
  | cons op ops ih1 => intro s h; exact ih1 (exec iw ih s op) (inv_exec iw ih s op h)

theorem inv_reachable (iw ih : Int) (s : AppState) (h : Reachable iw ih s) : Inv s := by
  obtain ⟨ops, rfl⟩ := h
  exact inv_run iw ih ops initState inv_initState

/-- Counting helper: removing the elements satisfying `p` shortens the
list by exactly `countP p`. -/
theorem length_filter_not {α : Type} (p : α → Bool) (l : List α) :
    (l.filter (fun a => !(p a))).length + l.countP p = l.length := by
  induction l with
  | nil => rfl
  | cons a l ih =>
      by_cases hpa : p a = true
      · simp only [List.filter_cons, List.countP_cons, hpa, Bool.not_true, if_true, if_false,
          Bool.false_eq_true, List.length_cons]
        omega
      · simp only [List.filter_cons, List.countP_cons, Bool.not_eq_true'] at *
        simp only [hpa, Bool.not_false, if_true, if_false, Bool.false_eq_true, List.length_cons]
        omega

/-- C10 (implicit): in every reachable session state, every window's
`zIndex` is at most the current `zCounter`: no operation ever produces a
window whose stacking key exceeds the counter. -/
theorem zIndex_le_zCounter_of_reachable (iw ih : Int) (s : AppState)
    (h : Reachable iw ih s) : ∀ w ∈ s.windows, w.zIndex ≤ s.zCounter :=
  (inv_reachable iw ih s h).1

/-- Witness for C10: the claim instantiated at the reachable state seeded
by submitting the crash code `a1b2` (five windows, `zCounter = 105`). -/
theorem zIndex_le_zCounter_of_reachable_witness :
    Reachable iw0 ih0 stateA ∧ ∀ w ∈ stateA.windows, w.zIndex ≤ stateA.zCounter := by
  have h : Reachable iw0 ih0 stateA := ⟨opsSeed, rfl⟩
  exact ⟨h, zIndex_le_zCounter_of_reachable iw0 ih0 stateA h⟩

/-- C5, amended: `focus(id)` always increments `zCounter` (also when `id`
is absent — the source's `setZCounter(z => z + 1)` runs unconditionally);
a window carrying `id` is reassigned `zCounter + 1`, strictly above every
other window's `zOrder` in any reachable state; windows not carrying `id`
are unchanged; when `id` is absent the collection itself is unchanged. -/
theorem focus_amended (iw ih : Int) (s : AppState) (h : Reachable iw ih s) (id : String) :
    (focusWindow id s).zCounter = s.zCounter + 1 ∧
    (∀ w ∈ (focusWindow id s).windows, w.id = id → w.zIndex = s.zCounter + 1) ∧
    (∀ w ∈ s.windows, w.id ≠ id →
       w ∈ (focusWindow id s).windows ∧ w.zIndex < s.zCounter + 1) ∧
    ((∀ w ∈ s.windows, w.id ≠ id) → (focusWindow id s).windows = s.windows) := by
  have hz := (inv_reachable iw ih s h).1
  refine ⟨rfl, ?_, ?_, ?_⟩
  · intro w hw hid
    simp only [focusWindow] at hw
    rcases List.mem_map.mp hw with ⟨w0, hw0, rfl⟩
    by_cases h0 : (w0.id == id) = true
    · rw [if_pos h0]
    · rw [if_neg h0] at hid ⊢
      exact absurd hid (by simpa using h0)
  · intro w hw hne
    have hbe : ¬ (w.id == id) = true := by simpa using hne
    constructor
    · simp only [focusWindow]
      exact List.mem_map.mpr ⟨w, hw, by rw [if_neg hbe]⟩
    · exact lt_of_le_of_lt (hz w hw) (by omega)
  · intro hall
    show s.windows.map
        (fun w => if w.id == id then { w with zIndex := s.zCounter + 1 } else w) = s.windows
    have hcong : s.windows.map
        (fun w => if w.id == id then { w with zIndex := s.zCounter + 1 } else w) =
          s.windows.map (fun w => w) := by
      apply List.map_congr_left
      intro w hw
      rw [if_neg (by simpa using hall w hw)]
    rw [hcong]
    simp

/-- Witness for the amended C5 theorem at the reachable crash state with
seeded ids `"w0"`..`"w4"`, focusing the existing id `"w0"`. -/
theorem focus_amended_witness :
    Reachable iw0 ih0 stateB ∧ (focusWindow "w0" stateB).zCounter = stateB.zCounter + 1 := by
  have h : Reachable iw0 ih0 stateB := ⟨opsSeedD, rfl⟩
  exact ⟨h, (focus_amended iw0 ih0 stateB h "w0").1⟩

/-- Counterexample to C5 as stated: in the reachable crash state `stateA`
no window has id `"nope"`, yet focusing `"nope"` is not a no-op — the
collection is unchanged but `zCounter` still advances. -/
theorem focus_absent_cex :
    Reachable iw0 ih0 stateA ∧
    stateA.windows.all (fun w => w.id != "nope") = true ∧
    (exec iw0 ih0 stateA (Op.focus "nope")).windows = stateA.windows ∧
    (exec iw0 ih0 stateA (Op.focus "nope")).zCounter ≠ stateA.zCounter :=
  ⟨⟨opsSeed, rfl⟩, by decide, by decide, by decide⟩

/-- C2: closing an existing (uniquely identified) window below the cap
removes it and appends two replacements at `(x∓20, y∓20)` with stacking
keys `zCounter+1`, `zCounter+2`, advancing the counter by 2 (net size
`+1`); at the cap it only removes (net `-1`), leaving the counter alone. -/
theorem close_replication (iw ih : Int) (r1 r2 : SpawnRand) (id : String) (x y : Int)
    (s : AppState) (h1 : s.windows.countP (fun w => w.id == id) = 1) :
    (s.windows.length < MAX_WINDOWS →
       (closeWindow iw ih r1 r2 id x y s).windows.length = s.windows.length + 1 ∧
       (closeWindow iw ih r1 r2 id x y s).zCounter = s.zCounter + 2 ∧
       ∃ w1 w2 : WindowData,
         (closeWindow iw ih r1 r2 id x y s).windows =
           s.windows.filter (fun w => w.id != id) ++ [w1, w2] ∧
         w1.x = x - 20 ∧ w1.y = y - 20 ∧ w1.zIndex = s.zCounter + 1 ∧
         w2.x = x + 20 ∧ w2.y = y + 20 ∧ w2.zIndex = s.zCounter + 2) ∧
    (s.windows.length = MAX_WINDOWS →
       (closeWindow iw ih r1 r2 id x y s).windows = s.windows.filter (fun w => w.id != id) ∧
       (closeWindow iw ih r1 r2 id x y s).windows.length = s.windows.length - 1 ∧
       (closeWindow iw ih r1 r2 id x y s).zCounter = s.zCounter) := by
  have hconv : (fun (w : WindowData) => w.id != id) = (fun w => !(w.id == id)) := rfl
  have hflen : (s.windows.filter (fun w => w.id != id)).length = s.windows.length - 1 := by
    have := length_filter_not (fun w => w.id == id) s.windows
    rw [hconv]
    omega
  have hge1 : 1 ≤ s.windows.length := by
    have hcl : s.windows.countP (fun w => w.id == id) ≤ s.windows.length :=
      List.countP_le_length (fun (w : WindowData) => w.id == id)
    omega
  constructor
  · intro hlt
    have hwnd : (closeWindow iw ih r1 r2 id x y s).windows =
        s.windows.filter (fun w => w.id != id) ++
          [createRandomWindow iw ih r1 (s.zCounter + 2 - 1) (some (x - 20)) (some (y - 20))
             (some s.crashTask) (some s.crashVisual),
           createRandomWindow iw ih r2 (s.zCounter + 2) (some (x + 20)) (some (y + 20))
             (some s.crashTask) (some s.crashVisual)] := by
      simp only [closeWindow, if_pos hlt]
    have hzc : (closeWindow iw ih r1 r2 id x y s).zCounter = s.zCounter + 2 := by
      simp only [closeWindow, if_pos hlt]
    refine ⟨?_, hzc,
      createRandomWindow iw ih r1 (s.zCounter + 2 - 1) (some (x - 20)) (some (y - 20))
        (some s.crashTask) (some s.crashVisual),
      createRandomWindow iw ih r2 (s.zCounter + 2) (some (x + 20)) (some (y + 20))
        (some s.crashTask) (some s.crashVisual),
      hwnd, by simp, by simp,
      by simp only [createRandomWindow_zIndex]; omega, by simp, by simp, by simp⟩
    rw [hwnd]
    simp only [List.length_append, List.length_cons, List.length_nil, hflen]
    omega
  · intro heq
    have hnlt : ¬ s.windows.length < MAX_WINDOWS := by omega
    have hwnd : (closeWindow iw ih r1 r2 id x y s).windows =
        s.windows.filter (fun w => w.id != id) := by
      simp only [closeWindow, if_neg hnlt]
    have hzc : (closeWindow iw ih r1 r2 id x y s).zCounter = s.zCounter := by
      simp only [closeWindow, if_neg hnlt]
    exact ⟨hwnd, by rw [hwnd, hflen], hzc⟩

/-- A handcrafted single-window crash state used to witness C2. -/
def wA : WindowData :=
  { id := "a", type := WindowType.TEXT, x := 0, y := 0, width := 100, height := 100,
    zIndex := 100, title := "t", content := WindowContent.text "c", rotation := 0 }

/-- A state holding exactly the window `wA`. -/
def sOne : AppState :=
  { mode := Mode.crash, inputCode := "", errorMsg := "", windows := [wA],
    zCounter := 105, crashTask := "A1", crashVisual := "B2" }

/-- Witness for C2 at the one-window state: closing `"a"` at `(50, 60)`
yields two windows and counter 107. -/
theorem close_replication_witness :
    sOne.windows.countP (fun w => w.id == "a") = 1 ∧
    (closeWindow iw0 ih0 r0 r0 "a" 50 60 sOne).windows.length = sOne.windows.length + 1 ∧
    (closeWindow iw0 ih0 r0 r0 "a" 50 60 sOne).zCounter = sOne.zCounter + 2 := by
  have h1 : sOne.windows.countP (fun w => w.id == "a") = 1 := by decide
  have h := (close_replication iw0 ih0 r0 r0 "a" 50 60 sOne h1).1 (by decide)
  exact ⟨h1, h.1, h.2.1⟩

/-- C4, amended: when no window carries `id`, `closeWindow` removes
nothing, but it still runs the cap check — below the cap it appends two
replacement windows and advances `zCounter` by 2; only at (or above) the
cap is it a genuine no-op. -/
theorem close_absent_amended (iw ih : Int) (r1 r2 : SpawnRand) (id : String) (x y : Int)
    (s : AppState) (h : ∀ w ∈ s.windows, w.id ≠ id) :
    (s.windows.length < MAX_WINDOWS →
       (closeWindow iw ih r1 r2 id x y s).zCounter = s.zCounter + 2 ∧
       ∃ w1 w2 : WindowData,
         (closeWindow iw ih r1 r2 id x y s).windows = s.windows ++ [w1, w2] ∧
         w1.x = x - 20 ∧ w1.y = y - 20 ∧ w1.zIndex = s.zCounter + 1 ∧
         w2.x = x + 20 ∧ w2.y = y + 20 ∧ w2.zIndex = s.zCounter + 2) ∧
    (¬ s.windows.length < MAX_WINDOWS →
       closeWindow iw ih r1 r2 id x y s = s) := by
  have hfe : s.windows.filter (fun w => w.id != id) = s.windows :=
    List.filter_eq_self.mpr (fun w hw => by simpa using h w hw)
  constructor
  · intro hlt
    refine ⟨by simp only [closeWindow, if_pos hlt],
      createRandomWindow iw ih r1 (s.zCounter + 2 - 1) (some (x - 20)) (some (y - 20))
        (some s.crashTask) (some s.crashVisual),
      createRandomWindow iw ih r2 (s.zCounter + 2) (some (x + 20)) (some (y + 20))
        (some s.crashTask) (some s.crashVisual),
      by simp only [closeWindow, if_pos hlt, hfe], by simp, by simp,
      by simp only [createRandomWindow_zIndex]; omega, by simp, by simp, by simp⟩
  · intro hnlt
    simp only [closeWindow, if_neg hnlt, hfe]

/-- Witness for the amended C4 at the empty initial state: no window has
id `"x"`, the count 0 is below the cap, and the close still bumps the
counter by 2. -/
theorem close_absent_amended_witness :
    (∀ w ∈ initState.windows, w.id ≠ "x") ∧
    (closeWindow iw0 ih0 r0 r0 "x" 0 0 initState).zCounter = initState.zCounter + 2 ∧
    ∃ w1 w2 : WindowData,
      (closeWindow iw0 ih0 r0 r0 "x" 0 0 initState).windows = initState.windows ++ [w1, w2] ∧
      w1.x = 0 - 20 ∧ w1.y = 0 - 20 ∧ w1.zIndex = initState.zCounter + 1 ∧
      w2.x = 0 + 20 ∧ w2.y = 0 + 20 ∧ w2.zIndex = initState.zCounter + 2 := by
  have h : ∀ w ∈ initState.windows, w.id ≠ "x" := by
    intro w hw
    simp [initState] at hw
  have hc := (close_absent_amended iw0 ih0 r0 r0 "x" 0 0 initState h).1 (by decide)
  exact ⟨h, hc.1, hc.2⟩

/-- Counterexample to C4 as stated: in the reachable crash state `stateA`
no window has id `"nope"`, yet `close("nope", 0, 0)` is not a no-op: the
collection grows from 5 to 7 and `zCounter` advances by 2. -/
theorem close_absent_cex :
    Reachable iw0 ih0 stateA ∧
    stateA.windows.all (fun w => w.id != "nope") = true ∧
    stateA.windows.length = 5 ∧
    (exec iw0 ih0 stateA (Op.close "nope" 0 0 r0 r0)).windows.length = 7 ∧
    (exec iw0 ih0 stateA (Op.close "nope" 0 0 r0 r0)).zCounter = stateA.zCounter + 2 :=
  ⟨⟨opsSeed, rfl⟩, by decide, by decide, by decide, by decide⟩

/-- C6: a submitted code whose normalization matches the crash grammar and
is not a success code drives the session to CRASH mode, splits the code
into `taskId` (first two characters) and `visualId` (rest), and seeds
exactly five windows with stacking keys 100..104 (counter at 105). -/
theorem submit_crash_seeds (iw ih : Int) (rs : Nat → SpawnRand) (s : AppState)
    (h1 : crashRegexTest (normalize s.inputCode) = true)
    (h2 : normalize s.inputCode ∉ SUCCESS_CODES) :
    (handleInputSubmit iw ih rs s).mode = Mode.crash ∧
    (handleInputSubmit iw ih rs s).crashTask = strTake (normalize s.inputCode) 2 ∧
    (handleInputSubmit iw ih rs s).crashVisual = strDrop (normalize s.inputCode) 2 ∧
    (handleInputSubmit iw ih rs s).windows.length = 5 ∧
    (handleInputSubmit iw ih rs s).windows.map (fun w => w.zIndex) =
      [100, 101, 102, 103, 104] ∧
    (handleInputSubmit iw ih rs s).zCounter = 105 := by
  rw [handleInputSubmit_crash iw ih rs s h2 h1]
  refine ⟨rfl, rfl, rfl, by simp, ?_, rfl⟩
  show ((List.range 5).map (fun i =>
      createRandomWindow iw ih (rs i) (100 + (i : Int)) none none
        (some (strTake (normalize s.inputCode) 2))
        (some (strDrop (normalize s.inputCode) 2)))).map (fun w => w.zIndex) =
    [100, 101, 102, 103, 104]
  rw [show List.range 5 = [0, 1, 2, 3, 4] from rfl]
  simp only [List.map_cons, List.map_nil, createRandomWindow_zIndex, List.cons.injEq,
    and_true]
  norm_num

/-- Witness for C6 at input `" a1b2"`. -/
theorem submit_crash_seeds_witness :
    crashRegexTest (normalize " a1b2") = true ∧ normalize " a1b2" ∉ SUCCESS_CODES ∧
    (handleInputSubmit iw0 ih0 rsD { initState with inputCode := " a1b2" }).mode =
      Mode.crash := by
  refine ⟨by decide, by decide, ?_⟩
  exact (submit_crash_seeds iw0 ih0 rsD { initState with inputCode := " a1b2" }
    (by decide) (by decide)).1

/-- C7: submitting any case/whitespace variant of a success code from a
reachable intro state yields VERIFIED mode with the collection still
empty. -/
theorem submit_success_verified (iw ih : Int) (rs : Nat → SpawnRand) (s : AppState)
    (hr : Reachable iw ih s) (hm : s.mode = Mode.intro)
    (hc : normalize s.inputCode ∈ SUCCESS_CODES) :
    (handleInputSubmit iw ih rs s).mode = Mode.verified ∧
    (handleInputSubmit iw ih rs s).windows = [] := by
  have hw0 : s.windows = [] := ((inv_reachable iw ih s hr).2 hm).1
  rw [handleInputSubmit_success iw ih rs s hc]
  exact ⟨rfl, hw0⟩

/-- The reachable intro state with `" a1b1 "` typed into the input. -/
def sTyped : AppState := run iw0 ih0 initState [Op.typing " a1b1 "]

/-- Witness for C7 at the typed variant `" a1b1 "` of the success code
`A1B1`. -/
theorem submit_success_verified_witness :
    Reachable iw0 ih0 sTyped ∧ sTyped.mode = Mode.intro ∧
    normalize sTyped.inputCode ∈ SUCCESS_CODES ∧
    (handleInputSubmit iw0 ih0 rsD sTyped).mode = Mode.verified ∧
    (handleInputSubmit iw0 ih0 rsD sTyped).windows = [] := by
  have hr : Reachable iw0 ih0 sTyped := ⟨[Op.typing " a1b1 "], rfl⟩
  have hm : sTyped.mode = Mode.intro := by decide
  have hc : normalize sTyped.inputCode ∈ SUCCESS_CODES := by decide
  have h := submit_success_verified iw0 ih0 rsD sTyped hr hm hc
  exact ⟨hr, hm, hc, h.1, h.2⟩

/-- C8: an input that is empty after normalization sets the EMPTY error
message; a non-empty one matching neither the success set nor the crash
grammar sets the INVALID error message; in both cases mode, windows and
counter are untouched. -/
theorem submit_error_handling (iw ih : Int) (rs : Nat → SpawnRand) (s : AppState) :
    (normalize s.inputCode = "" →
       (handleInputSubmit iw ih rs s).errorMsg = "ERROR: INPUT REQUIRED" ∧
       (handleInputSubmit iw ih rs s).mode = s.mode ∧
       (handleInputSubmit iw ih rs s).windows = s.windows ∧
       (handleInputSubmit iw ih rs s).zCounter = s.zCounter) ∧
    (normalize s.inputCode ≠ "" → normalize s.inputCode ∉ SUCCESS_CODES →
       crashRegexTest (normalize s.inputCode) = false →
       (handleInputSubmit iw ih rs s).errorMsg = "ERROR: INVALID CODE" ∧
       (handleInputSubmit iw ih rs s).mode = s.mode ∧
       (handleInputSubmit iw ih rs s).windows = s.windows ∧
       (handleInputSubmit iw ih rs s).zCounter = s.zCounter) := by
  constructor
  · intro he
    rw [handleInputSubmit_empty iw ih rs s he]
    exact ⟨rfl, rfl, rfl, rfl⟩
  · intro h0 h1 h2
    rw [handleInputSubmit_invalid iw ih rs s h0 h1 h2]
    exact ⟨rfl, rfl, rfl, rfl⟩

/-- The initial state with a whitespace-only input typed. -/
def sBlank : AppState := { initState with inputCode := "   " }

/-- The initial state with the unparsable input `ZZZZ` typed. -/
def sGarbage : AppState := { initState with inputCode := "ZZZZ" }

/-- Witness for C8 at a whitespace-only input and at `"ZZZZ"`. -/
theorem submit_error_handling_witness :
    (normalize sBlank.inputCode = "" ∧
       (handleInputSubmit iw0 ih0 rsD sBlank).errorMsg = "ERROR: INPUT REQUIRED" ∧
       (handleInputSubmit iw0 ih0 rsD sBlank).mode = sBlank.mode) ∧
    (normalize sGarbage.inputCode ≠ "" ∧
       (handleInputSubmit iw0 ih0 rsD sGarbage).errorMsg = "ERROR: INVALID CODE" ∧
       (handleInputSubmit iw0 ih0 rsD sGarbage).mode = sGarbage.mode) := by
  constructor
  · have h := (submit_error_handling iw0 ih0 rsD sBlank).1 (by decide)
    exact ⟨by decide, h.1, h.2.1⟩
  · have h := (submit_error_handling iw0 ih0 rsD sGarbage).2 (by decide) (by decide) (by decide)
    exact ⟨by decide, h.1, h.2.1⟩

/-! ### C9: CODE windows hold 20 snippet lines -/

theorem getD_default_mem {α : Type} [Inhabited α] (l : List α) (n : Nat)
    (h : n < l.length) : l.getD n default ∈ l := by
  rw [List.getD_eq_getElem?_getD, List.getElem?_eq_getElem h, Option.getD_some]
  exact List.getElem_mem h

theorem randomItem_mem {α : Type} [Inhabited α] (l : List α) (idx : Nat) (h : l ≠ []) :
    randomItem l idx ∈ l := by
  unfold randomItem
  exact getD_default_mem l _ (Nat.mod_lt _ (List.length_pos.mpr h))

theorem foldl_append_join : ∀ (l : List String) (a : String),
    l.foldl (fun x y => x ++ y) a = a ++ String.join l := by
  intro l
  induction l with
  | nil =>
      intro a
      simp [String.join]
  | cons b l ihl =>
      intro a
      show l.foldl (fun x y => x ++ y) (a ++ b) = a ++ String.join (b :: l)
      have hbl : String.join (b :: l) = b ++ String.join l := by
        show l.foldl (fun x y => x ++ y) ("" ++ b) = b ++ String.join l
        rw [ihl ("" ++ b), String.empty_append]
      rw [ihl (a ++ b), hbl, String.append_assoc]

/-- `generateRandomCode` is the newline-terminated join of its sampled
snippet lines. -/
theorem generateRandomCode_join (pick : Nat → Nat) (n : Nat) :
    generateRandomCode pick n =
      String.join ((List.range n).map (fun i => randomItem snippets (pick i) ++ "\n")) := by
  induction n with
  | zero => rfl
  | succ m ihm =>
      show (List.range (m + 1)).foldl
          (fun code i => code ++ randomItem snippets (pick i) ++ "\n") "" = _
      rw [List.range_succ, List.foldl_append, List.map_append]
      simp only [List.foldl_cons, List.foldl_nil, List.map_cons, List.map_nil]
      have hfold : (List.range m).foldl
          (fun code i => code ++ randomItem snippets (pick i) ++ "\n") "" =
            generateRandomCode pick m := rfl
      have hjoin : ∀ (l : List String) (x : String),
          String.join (l ++ [x]) = String.join l ++ x := by
        intro l x
        show (l ++ [x]).foldl (fun r s => r ++ s) "" = _
        rw [List.foldl_append]
        simp only [List.foldl_cons, List.foldl_nil]
        rfl
      rw [hfold, ihm, hjoin, String.append_assoc]

@[simp] theorem createRandomWindow_type (iw ih : Int) (r : SpawnRand) (z : Int)
    (x0 y0 : Option Int) (t v : Option String) :
    (createRandomWindow iw ih r z x0 y0 t v).type = randomItem windowTypes r.typeIdx := rfl

/-- C9: a spawned window of kind CODE carries exactly 20 newline-terminated
lines, each drawn from the fixed 12-entry snippet pool. -/
theorem code_window_content (iw ih : Int) (r : SpawnRand) (z : Int)
    (x0 y0 : Option Int) (t v : Option String)
    (h : (createRandomWindow iw ih r z x0 y0 t v).type = WindowType.CODE) :
    ∃ l : List String, l.length = 20 ∧ (∀ ln ∈ l, ln ∈ snippets) ∧
      (createRandomWindow iw ih r z x0 y0 t v).content =
        WindowContent.code (String.join (l.map (fun ln => ln ++ "\n"))) := by
  rw [createRandomWindow_type] at h
  have hlen : windowTypes.length = 4 := rfl
  have h4 : r.typeIdx % 4 = 0 ∨ r.typeIdx % 4 = 1 ∨ r.typeIdx % 4 = 2 ∨ r.typeIdx % 4 = 3 := by
    omega
  have htype : ∀ k : Nat, r.typeIdx % 4 = k →
      randomItem windowTypes r.typeIdx = windowTypes.getD k default := by
    intro k hk
    unfold randomItem
    rw [hlen, hk]
  rcases h4 with h0 | h0 | h0 | h0
  · rw [htype 0 h0] at h
    exact absurd h (by decide)
  · rw [htype 1 h0] at h
    exact absurd h (by decide)
  · have htc : randomItem windowTypes r.typeIdx = WindowType.CODE := htype 2 h0
    refine ⟨(List.range 20).map (fun i => randomItem snippets (r.codePick i)), by simp, ?_, ?_⟩
    · intro ln hln
      rcases List.mem_map.mp hln with ⟨i, _, rfl⟩
      exact randomItem_mem snippets (r.codePick i) (by decide)
    · have hc : (createRandomWindow iw ih r z x0 y0 t v).content =
          WindowContent.code (generateRandomCode r.codePick 20) := by
        simp only [createRandomWindow, htc]
      rw [hc, generateRandomCode_join, List.map_map]
      rfl
  · rw [htype 3 h0] at h
    exact absurd h (by decide)

/-- Witness for C9 with the type roll forced to CODE. -/
theorem code_window_content_witness :
    (createRandomWindow iw0 ih0 { r0 with typeIdx := 2 } 0 none none none none).type =
      WindowType.CODE ∧
    ∃ l : List String, l.length = 20 ∧ (∀ ln ∈ l, ln ∈ snippets) ∧
      (createRandomWindow iw0 ih0 { r0 with typeIdx := 2 } 0 none none none none).content =
        WindowContent.code (String.join (l.map (fun ln => ln ++ "\n"))) := by
  refine ⟨by decide, ?_⟩
  exact code_window_content iw0 ih0 { r0 with typeIdx := 2 } 0 none none none none (by decide)

/-! ### C1: the window cap -/

/-- Every close event of the sequence targets a window present at that
moment — exactly what the UI guarantees, since the close button lives in
the title bar of an existing window. -/
def ClosesOk (iw ih : Int) : AppState → List Op → Prop
  | _, [] => True
  | s, op :: ops =>
      (∀ id x y r1 r2, op = Op.close id x y r1 r2 → s.mode = Mode.crash →
         ∃ w ∈ s.windows, w.id = id) ∧
      ClosesOk iw ih (exec iw ih s op) ops

/-- One step preserves the cap, provided a close targets a present id. -/
theorem exec_length_le (iw ih : Int) (s : AppState) (op : Op)
    (hle : s.windows.length ≤ MAX_WINDOWS)
    (hok : ∀ id x y r1 r2, op = Op.close id x y r1 r2 → s.mode = Mode.crash →
       ∃ w ∈ s.windows, w.id = id) :
    (exec iw ih s op).windows.length ≤ MAX_WINDOWS := by
  cases op with
  | typing str =>
      simp only [exec]
      split
      · exact hle
      · exact hle
  | submit rs =>
      simp only [exec]
      split
      · by_cases he : normalize s.inputCode = ""
        · rw [handleInputSubmit_empty iw ih rs s he]
          exact hle
        · by_cases hs : normalize s.inputCode ∈ SUCCESS_CODES
          · rw [handleInputSubmit_success iw ih rs s hs]
            exact hle
          · by_cases hcr : crashRegexTest (normalize s.inputCode) = true
            · rw [handleInputSubmit_crash iw ih rs s hs hcr]
              show ((List.range 5).map _).length ≤ MAX_WINDOWS
              rw [List.length_map, List.length_range]
              decide
            · rw [handleInputSubmit_invalid iw ih rs s he hs (Bool.eq_false_iff.mpr hcr)]
              exact hle
      · exact hle
  | tick r =>
      simp only [exec]
      split
      · rw [crashTick_eq]
        show (if s.windows.length ≥ MAX_WINDOWS then s.windows
            else s.windows ++ [createRandomWindow iw ih r s.zCounter none none
              (some s.crashTask) (some s.crashVisual)]).length ≤ MAX_WINDOWS
        split
        · exact hle
        · rename_i hfull
          simp only [List.length_append, List.length_cons, List.length_nil]
          omega
      · exact hle
  | close id x y r1 r2 =>
      simp only [exec]
      split
      · rename_i hm
        obtain ⟨w0, hw0, hid⟩ := hok id x y r1 r2 rfl hm
        have hcnt : 0 < s.windows.countP (fun w => w.id == id) :=
          List.countP_pos_iff.mpr ⟨w0, hw0, by simpa using hid⟩
        have htot := length_filter_not (fun (w : WindowData) => w.id == id) s.windows
        have hconv : (fun (w : WindowData) => w.id != id) = (fun w => !(w.id == id)) := rfl
        by_cases hlt : s.windows.length < MAX_WINDOWS
        · simp only [closeWindow, if_pos hlt, List.length_append, List.length_cons,
            List.length_nil, hconv]
          omega
        · simp only [closeWindow, if_neg hlt, hconv]
          omega
      · exact hle
  | focus id =>
      simp only [exec]
      split
      · show (s.windows.map _).length ≤ MAX_WINDOWS
        rw [List.length_map]
        exact hle
      · exact hle
  | drag id dx dy =>
      simp only [exec]
      split
      · show (s.windows.map _).length ≤ MAX_WINDOWS
        rw [List.length_map]
        exact hle
      · exact hle

/-- C1, amended: along any event sequence whose close events each target a
window present in the collection (which the UI guarantees), the window
count never exceeds `MAX_WINDOWS = 40`. -/
theorem cap_preserved_amended (iw ih : Int) : ∀ (ops : List Op) (s : AppState),
    s.windows.length ≤ MAX_WINDOWS → ClosesOk iw ih s ops →
    (run iw ih s ops).windows.length ≤ MAX_WINDOWS := by
  intro ops
  induction ops with
  | nil => intro s h _; exact h
  | cons op ops ihop =>
      intro s h hok
      exact ihop (exec iw ih s op) (exec_length_le iw ih s op h hok.1) hok.2

/-- Witness for the amended C1 on the seed sequence (which contains no
close events). -/
theorem cap_preserved_amended_witness :
    initState.windows.length ≤ MAX_WINDOWS ∧ ClosesOk iw0 ih0 initState opsSeed ∧
    (run iw0 ih0 initState opsSeed).windows.length ≤ MAX_WINDOWS := by
  have hok : ClosesOk iw0 ih0 initState opsSeed := by
    refine ⟨?_, ?_, trivial⟩
    · intro id x y r1 r2 hop
      exact Op.noConfusion hop
    · intro id x y r1 r2 hop
      exact Op.noConfusion hop
  exact ⟨by decide, hok, cap_preserved_amended iw0 ih0 opsSeed initState (by decide) hok⟩

/-- Per-tick bookkeeping for the counterexample run: ticks with the `r0`
oracle keep the mode, grow the collection by one per tick (below the
cap), and keep all ids at `"w"`. -/
theorem run_ticks_facts (iw ih : Int) : ∀ (n : Nat) (s : AppState),
    s.mode = Mode.crash → (∀ w ∈ s.windows, w.id = "w") →
    s.windows.length + n ≤ MAX_WINDOWS →
    (run iw ih s (List.replicate n (Op.tick r0))).mode = Mode.crash ∧
    (run iw ih s (List.replicate n (Op.tick r0))).windows.length = s.windows.length + n ∧
    (∀ w ∈ (run iw ih s (List.replicate n (Op.tick r0))).windows, w.id = "w") := by
  intro n
  induction n with
  | zero => intro s hm hid _; exact ⟨hm, rfl, hid⟩
  | succ m ihm =>
      intro s hm hid hle
      rw [List.replicate_succ, run_cons]
      have hex : exec iw ih s (Op.tick r0) = crashTick iw ih r0 s := by
        simp [exec, hm]
      have hfull : ¬ s.windows.length ≥ MAX_WINDOWS := by omega
      have h1 : (crashTick iw ih r0 s).mode = Mode.crash := by
        rw [crashTick_eq]
        exact hm
      have h2 : (crashTick iw ih r0 s).windows =
          s.windows ++ [createRandomWindow iw ih r0 s.zCounter none none
            (some s.crashTask) (some s.crashVisual)] := by
        rw [crashTick_eq]
        simp only [if_neg hfull]
      have h3 : ∀ w ∈ (crashTick iw ih r0 s).windows, w.id = "w" := by
        intro w hw
        rw [h2] at hw
        rcases List.mem_append.mp hw with hw1 | hw2
        · exact hid w hw1
        · rcases List.mem_singleton.mp hw2 with rfl
          rfl
      have h4 : (crashTick iw ih r0 s).windows.length = s.windows.length + 1 := by
        rw [h2]
        simp
      rw [hex]
      have hrec := ihm (crashTick iw ih r0 s) h1 h3 (by omega)
      refine ⟨hrec.1, ?_, hrec.2.2⟩
      rw [hrec.2.1, h4]
      omega

/-- The event sequence reaching 39 windows: seed 5, then 34 ticks. -/
def ops39 : List Op := opsSeed ++ List.replicate 34 (Op.tick r0)

/-- The reachable crash state with 39 windows. -/
def state39 : AppState := run iw0 ih0 initState ops39

/-- Counterexample to C1 as stated: from the reachable 39-window state, a
close event naming an absent id removes nothing but still spawns two
replacements, pushing the collection to 41 > 40. -/
theorem cap_exceeded_cex :
    Reachable iw0 ih0 state39 ∧ state39.windows.length = 39 ∧
    (exec iw0 ih0 state39 (Op.close "x" 0 0 r0 r0)).windows.length = 41 ∧
    MAX_WINDOWS < (exec iw0 ih0 state39 (Op.close "x" 0 0 r0 r0)).windows.length := by
  have hA_mode : stateA.mode = Mode.crash := by decide
  have hA_len : stateA.windows.length = 5 := by decide
  have hA_id : ∀ w ∈ stateA.windows, w.id = "w" := by decide
  have hrun : state39 = run iw0 ih0 stateA (List.replicate 34 (Op.tick r0)) := by
    show run iw0 ih0 initState (opsSeed ++ List.replicate 34 (Op.tick r0)) = _
    rw [run_append]
    rfl
  have hfacts := run_ticks_facts iw0 ih0 34 stateA hA_mode hA_id (by rw [hA_len]; decide)
  have h39mode : state39.mode = Mode.crash := by rw [hrun]; exact hfacts.1
  have h39len : state39.windows.length = 39 := by
    rw [hrun, hfacts.2.1, hA_len]
  have h39id : ∀ w ∈ state39.windows, w.id = "w" := by
    rw [hrun]
    exact hfacts.2.2
  have hexec : exec iw0 ih0 state39 (Op.close "x" 0 0 r0 r0) =
      closeWindow iw0 ih0 r0 r0 "x" 0 0 state39 := by
    simp [exec, h39mode]
  have hfe : state39.windows.filter (fun w => w.id != "x") = state39.windows :=
    List.filter_eq_self.mpr (fun w hw => by rw [h39id w hw]; decide)
  have hlt : state39.windows.length < MAX_WINDOWS := by
    rw [h39len]
    decide
  have hlen41 : (closeWindow iw0 ih0 r0 r0 "x" 0 0 state39).windows.length = 41 := by
    simp only [closeWindow, if_pos hlt, hfe, List.length_append, List.length_cons,
      List.length_nil]
    omega
  refine ⟨⟨ops39, rfl⟩, h39len, ?_, ?_⟩
  · rw [hexec]
    exact hlen41
  · rw [hexec, hlen41]
    decide

/-! ### C3: the zOrder assignment log -/

/-- Per-step bounds for the assignment log: every value the step assigns
lies between the counter before and after the step, the counter never
decreases, and the values within one step are ordered. -/
theorem assigns_bounds (iw ih : Int) (s : AppState) (op : Op) (hinv : Inv s) :
    (∀ z ∈ assigns s op, s.zCounter ≤ z ∧ z ≤ (exec iw ih s op).zCounter) ∧
    s.zCounter ≤ (exec iw ih s op).zCounter ∧
    List.Chain' (fun a b => a ≤ b) (assigns s op) := by
  obtain ⟨hz, hintro⟩ := hinv
  cases op with
  | typing str =>
      refine ⟨by simp [assigns], ?_, by simp [assigns]⟩
      simp only [exec]
      split
      · exact le_refl s.zCounter
      · exact le_refl s.zCounter
  | submit rs =>
      simp only [exec, assigns]
      split
      · rename_i hm
        obtain ⟨hw0, hc0⟩ := hintro hm
        by_cases he : normalize s.inputCode = ""
        · rw [handleInputSubmit_empty iw ih rs s he]
          simp [he]
        · by_cases hs : normalize s.inputCode ∈ SUCCESS_CODES
          · rw [handleInputSubmit_success iw ih rs s hs]
            simp [he, hs]
          · by_cases hcr : crashRegexTest (normalize s.inputCode) = true
            · rw [handleInputSubmit_crash iw ih rs s hs hcr]
              simp only [he, hs, hcr, if_neg, if_pos, if_false, if_true]
              refine ⟨?_, ?_, ?_⟩
              · intro z hzin
                show s.zCounter ≤ z ∧ z ≤ 105
                simp at hzin
                rcases hzin with rfl | rfl | rfl | rfl | rfl <;> omega
              · show s.zCounter ≤ 105
                omega
              · simp only [List.chain'_cons, List.chain'_singleton, and_true]
                norm_num
            · rw [handleInputSubmit_invalid iw ih rs s he hs (Bool.eq_false_iff.mpr hcr)]
              simp [he, hs, hcr]
      · simp
  | tick r =>
      simp only [exec, assigns]
      split
      · rw [crashTick_eq]
        by_cases hfull : s.windows.length ≥ MAX_WINDOWS
        · simp only [hfull, if_pos]
          refine ⟨by simp, ?_, by simp⟩
          show s.zCounter ≤ s.zCounter + 1
          omega
        · simp only [hfull, if_neg, if_false]
          refine ⟨?_, ?_, by simp⟩
          · intro z hzin
            rcases List.mem_singleton.mp hzin with rfl
            constructor
            · exact le_refl s.zCounter
            · show s.zCounter ≤ s.zCounter + 1
              omega
          · show s.zCounter ≤ s.zCounter + 1
            omega
      · simp
  | close id x y r1 r2 =>
      simp only [exec, assigns]
      split
      · by_cases hlt : s.windows.length < MAX_WINDOWS
        · simp only [closeWindow, hlt, if_pos]
          refine ⟨?_, ?_, ?_⟩
          · intro z hzin
            show s.zCounter ≤ z ∧ z ≤ s.zCounter + 2
            cases hzin with
            | head => omega
            | tail _ hzt =>
                rcases List.mem_singleton.mp hzt with rfl
                omega
          · show s.zCounter ≤ s.zCounter + 2
            omega
          · exact List.chain'_cons.mpr ⟨by omega, List.chain'_singleton _⟩
        · simp only [closeWindow, hlt, if_neg, if_false]
          simp
      · simp
  | focus id =>
      simp only [exec, assigns]
      split
      · simp only [focusWindow]
        split
        · refine ⟨?_, ?_, by simp⟩
          · intro z hzin
            rcases List.mem_singleton.mp hzin with rfl
            constructor
            · show s.zCounter ≤ s.zCounter + 1
              omega
            · exact le_refl (s.zCounter + 1)
          · show s.zCounter ≤ s.zCounter + 1
            omega
        · refine ⟨by simp, ?_, by simp⟩
          show s.zCounter ≤ s.zCounter + 1
          omega
      · simp
  | drag id dx dy =>
      refine ⟨by simp [assigns], ?_, by simp [assigns]⟩
      simp only [exec]
      split
      · exact le_refl s.zCounter
      · exact le_refl s.zCounter

/-- The full-log invariant: logs of runs from an invariant state are
ordered, and every logged value is at least the starting counter. -/
theorem runLog_facts (iw ih : Int) : ∀ (ops : List Op) (s : AppState), Inv s →
    List.Chain' (fun a b => a ≤ b) (runLog iw ih s ops) ∧
    ∀ z ∈ runLog iw ih s ops, s.zCounter ≤ z := by
  intro ops
  induction ops with
  | nil =>
      intro s _
      exact ⟨List.chain'_nil, by simp [runLog]⟩
  | cons op ops ihop =>
      intro s hinv
      obtain ⟨hb, hmono, hchain⟩ := assigns_bounds iw ih s op hinv
      obtain ⟨hc2, hge2⟩ := ihop (exec iw ih s op) (inv_exec iw ih s op hinv)
      constructor
      · show List.Chain' (fun a b => a ≤ b)
          (assigns s op ++ runLog iw ih (exec iw ih s op) ops)
        rw [List.chain'_append]
        refine ⟨hchain, hc2, ?_⟩
        intro a ha b hb2
        have ha' : a ∈ assigns s op := List.mem_of_mem_getLast? ha
        have hb' : b ∈ runLog iw ih (exec iw ih s op) ops := List.mem_of_mem_head? hb2
        exact le_trans (hb a ha').2 (hge2 b hb')
      · intro z hzin
        rcases List.mem_append.mp hzin with h1 | h2
        · exact (hb z h1).1
        · exact le_trans hmono (hge2 z h2)

/-- C3, amended: across any event sequence of a session, the zOrder
values are assigned in monotonically non-decreasing order (uniqueness,
however, fails — see the counterexample). -/
theorem zOrder_log_monotone (iw ih : Int) (ops : List Op) :
    List.Chain' (fun a b => a ≤ b) (runLog iw ih initState ops) :=
  (runLog_facts iw ih ops initState inv_initState).1

/-- Counterexample to C3 as stated: focusing a window and letting the
spawn interval fire assigns the value 106 twice — to the focused window
and to the freshly spawned one — so zOrder values are reused. -/
theorem zOrder_reuse_cex :
    runLog iw0 ih0 initState (opsSeedD ++ [Op.focus "w0", Op.tick r0]) =
      [100, 101, 102, 103, 104, 106, 106] ∧
    ¬ (runLog iw0 ih0 initState (opsSeedD ++ [Op.focus "w0", Op.tick r0])).Nodup ∧
    (run iw0 ih0 initState (opsSeedD ++ [Op.focus "w0", Op.tick r0])).windows.map
        (fun w => (w.id, w.zIndex)) =
      [("w0", 106), ("w1", 101), ("w2", 102), ("w3", 103), ("w4", 104), ("w", 106)] :=
  ⟨by decide, by decide, by decide⟩

end Captcha
